import Mathlib

/-!
# Push-notification client glue: a shallow embedding

Embedding of `static/push-manager.js` (the subscription workflow `runPushManager`,
the key conversion `urlBase64ToUint8Array`, the top-level capability check) and of
`service-worker.js` (the `push` listener).

JavaScript strings are sequences of UTF-16 code units and are modelled as lists of
natural numbers.  The browser built-ins the scripts call are either modelled from
their standards (`window.atob` is the forgiving-base64 decode of the WHATWG Infra
standard) or, where their result depends on the outside world (registration,
permission prompt, push service, network), taken from an environment record.
-/

namespace PushClient

/-! ## Strings -/

/-- A JavaScript string: its UTF-16 code units. -/
abbrev JSString := List Nat

/-- The code units of an ASCII literal of the source. -/
def js (s : String) : JSString := s.toList.map Char.toNat

/-- Code unit of the padding sign. -/
def chEq : Nat := 61
/-- Code unit of the plus sign. -/
def chPlus : Nat := 43
/-- Code unit of the slash. -/
def chSlash : Nat := 47
/-- Code unit of the hyphen-minus. -/
def chMinus : Nat := 45
/-- Code unit of the underscore. -/
def chUnderscore : Nat := 95

/-- The method `String.prototype.repeat` on a one-character string. -/
def repeatChar (c : Nat) (count : Nat) : JSString := List.replicate count c

/-- The method `String.prototype.replace` with a global one-character pattern `c`
and the one-character replacement `d`. -/
def replaceAll (c d : Nat) (str : JSString) : JSString :=
  str.map (fun x => if x = c then d else x)

/-- The method `String.prototype.charCodeAt`; out of range it is NaN, which a
`Uint8Array` stores as 0. -/
def charCodeAt (str : JSString) (i : Nat) : Nat := str.getD i 0

/-! ## `window.atob`: forgiving-base64 decode (WHATWG Infra)

`atob` is a browser built-in. It is modelled step by step after the algorithm
"forgiving-base64 decode" of the WHATWG Infra standard, which the HTML standard
prescribes for it. -/

/-- ASCII whitespace: TAB, LF, FF, CR, SPACE. -/
def isAsciiWhitespace (c : Nat) : Bool :=
  c == 9 || c == 10 || c == 12 || c == 13 || c == 32

/-- A leading surrogate code unit. -/
def isLeadSurrogate (c : Nat) : Bool := 0xD800 ≤ c && c ≤ 0xDBFF

/-- A trailing surrogate code unit. -/
def isTrailSurrogate (c : Nat) : Bool := 0xDC00 ≤ c && c ≤ 0xDFFF

/-- Code point length of a string: a surrogate pair counts once. -/
def codePointLength : JSString → Nat
  | [] => 0
  | [_] => 1
  | a :: b :: rest =>
    if isLeadSurrogate a && isTrailSurrogate b then codePointLength rest + 1
    else codePointLength (b :: rest) + 1

/-- Table 1 of RFC 4648: the value of a character of the base64 alphabet. -/
def base64Value (c : Nat) : Option Nat :=
  if 65 ≤ c ∧ c ≤ 90 then some (c - 65)
  else if 97 ≤ c ∧ c ≤ 122 then some (c - 97 + 26)
  else if 48 ≤ c ∧ c ≤ 57 then some (c - 48 + 52)
  else if c = chPlus then some 62
  else if c = chSlash then some 63
  else none

/-- The string ends with U+003D. -/
def endsWithEq (data : JSString) : Bool := data.getLast? == some chEq

/-- Step 2 of forgiving-base64 decode: remove one or two trailing U+003D. -/
def removeTrailingEq (data : JSString) : JSString :=
  if endsWithEq data then
    if endsWithEq data.dropLast then data.dropLast.dropLast else data.dropLast
  else data

/-- Bit `i` of `n`. -/
def bitAt (n i : Nat) : Bool := decide (n / 2 ^ i % 2 = 1)

/-- The six bits of `n`, most significant first. -/
def sixBits (n : Nat) : List Bool :=
  [bitAt n 5, bitAt n 4, bitAt n 3, bitAt n 2, bitAt n 1, bitAt n 0]

/-- A bit sequence read as a big-endian number. -/
def bitsToNat (bits : List Bool) : Nat :=
  bits.foldl (fun acc b => 2 * acc + b.toNat) 0

/-- Step 8 of forgiving-base64 decode, followed by step 9 at the end of the data:
the buffer collects six bits per character and is flushed as three bytes when it
holds 24 bits. -/
def decodeLoop : JSString → List Bool → List Nat → List Nat
  | [], buffer, output =>
    if buffer.length = 12 then
      output ++ [bitsToNat (buffer.take 8)]
    else if buffer.length = 18 then
      output ++ [bitsToNat (buffer.take 8), bitsToNat ((buffer.drop 8).take 8)]
    else output
  | c :: rest, buffer, output =>
    let n := (base64Value c).getD 0
    let buffer := buffer ++ sixBits n
    if buffer.length = 24 then
      decodeLoop rest []
        (output ++ [bitsToNat (buffer.take 8), bitsToNat ((buffer.drop 8).take 8),
          bitsToNat (buffer.drop 16)])
    else decodeLoop rest buffer output

/-- Forgiving-base64 decode; `none` is failure. -/
def forgivingBase64Decode (data : JSString) : Option (List Nat) :=
  let data := data.filter (fun c => !isAsciiWhitespace c)
  let data := if codePointLength data % 4 = 0 then removeTrailingEq data else data
  if codePointLength data % 4 = 1 then none
  else if data.any (fun c => (base64Value c).isNone) then none
  else some (decodeLoop data [] [])

/-- A thrown JavaScript value, identified by its name. -/
structure JSError where
  name : JSString
deriving DecidableEq, Repr

/-- How a call ends: it returns (a promise resolves) with a value, or it throws (a
promise rejects) with an error. -/
inductive Outcome (α : Type) where
  | returned (value : α)
  | threw (error : JSError)
deriving DecidableEq, Repr

/-- The exception `window.atob` throws on failure. -/
def invalidCharacterError : JSError := ⟨js "InvalidCharacterError"⟩

/-- The built-in `window.atob`: the decoded bytes as a string of code units below
256, or an `InvalidCharacterError`. -/
def atob (data : JSString) : Outcome JSString :=
  match forgivingBase64Decode data with
  | none => .threw invalidCharacterError
  | some bytes => .returned bytes

/-! ## `urlBase64ToUint8Array` (push-manager.js, lines 50-57) -/

/-- Line 51: `'='.repeat((4 - base64String.length % 4) % 4)`. -/
def paddingOf (base64String : JSString) : JSString :=
  repeatChar chEq ((4 - base64String.length % 4) % 4)

/-- Line 52: `base64String + padding`, then every hyphen replaced by a plus sign,
then every underscore replaced by a slash. -/
def base64Of (base64String : JSString) : JSString :=
  replaceAll chUnderscore chSlash (replaceAll chMinus chPlus (base64String ++ paddingOf base64String))

/-- Lines 54-55: a zero-filled `Uint8Array` of the length of `rawData`, then
`outputArray[i] = rawData.charCodeAt(i)` for `i` from 0; a store keeps the value
modulo 256. -/
def fillArray (rawData : JSString) : List Nat :=
  (List.range rawData.length).foldl
    (fun outputArray i => outputArray.set i (charCodeAt rawData i % 256))
    (List.replicate rawData.length 0)

/-- The function `urlBase64ToUint8Array`. -/
def urlBase64ToUint8Array (base64String : JSString) : Outcome (List Nat) :=
  match atob (base64Of base64String) with
  | .threw e => .threw e
  | .returned rawData => .returned (fillArray rawData)

/-! ## Reference: base64url decoding after RFC 4648, section 5 -/

/-- Table 2 of RFC 4648: the value of a character of the URL-safe alphabet. -/
def base64urlValue (c : Nat) : Option Nat :=
  if 65 ≤ c ∧ c ≤ 90 then some (c - 65)
  else if 97 ≤ c ∧ c ≤ 122 then some (c - 97 + 26)
  else if 48 ≤ c ∧ c ≤ 57 then some (c - 48 + 52)
  else if c = chMinus then some 62
  else if c = chUnderscore then some 63
  else none

/-- A character of the URL-safe alphabet. -/
def isBase64urlChar (c : Nat) : Bool := (base64urlValue c).isSome

/-- A valid unpadded base64url string: only alphabet characters, and a length that
an encoder can produce. -/
def ValidBase64url (s : JSString) : Prop :=
  (∀ c ∈ s, isBase64urlChar c = true) ∧ s.length % 4 ≠ 1

/-- RFC 4648 on 6-bit values: four values give three octets, a final group of three
gives two, a final group of two gives one. -/
def octetsOfSextets : List Nat → List Nat
  | a :: b :: c :: d :: rest =>
    (a * 4 + b / 16) :: (b % 16 * 16 + c / 4) :: (c % 4 * 64 + d) :: octetsOfSextets rest
  | [a, b, c] => [a * 4 + b / 16, b % 16 * 16 + c / 4]
  | [a, b] => [a * 4 + b / 16]
  | _ => []

/-- Standard base64url decoding of an unpadded string. -/
def base64urlDecode (s : JSString) : List Nat :=
  octetsOfSextets (s.map (fun c => (base64urlValue c).getD 0))

/-! ## Effects of the two scripts -/

/-- The console methods the scripts use. -/
inductive Level where
  | log
  | warn
  | error
deriving DecidableEq, Repr

/-- A value parsed from JSON, or `undefined`. -/
inductive JSValue where
  | undefined
  | null
  | bool (b : Bool)
  | number (n : Int)
  | string (s : JSString)
  | array (items : List JSValue)
  | object (fields : List (JSString × JSValue))

/-- The second argument of a console call, where there is one. -/
inductive LogArg where
  | str (s : JSString)
  | err (e : JSError)
deriving DecidableEq, Repr

/-- A `ServiceWorkerRegistration`, as far as the workflow reads it. -/
structure Registration where
  scope : JSString
deriving DecidableEq, Repr

/-- The options object passed to `pushManager.subscribe`. -/
structure SubscribeOptions where
  userVisibleOnly : Bool
  applicationServerKey : List Nat
deriving DecidableEq, Repr

/-- A browser-issued push subscription: an endpoint and keys. -/
structure PushSubscription where
  endpoint : JSString
  p256dh : JSString
  auth : JSString
deriving DecidableEq, Repr

/-- The init object passed to `fetch`. -/
structure RequestInit where
  method : JSString
  body : JSString
  headers : List (JSString × JSString)
deriving DecidableEq, Repr

/-- A `Response`, as far as the workflow reads it. -/
structure Response where
  ok : Bool
deriving DecidableEq, Repr

/-- The options object passed to `showNotification`. -/
structure NotificationOptions where
  body : JSValue
  icon : JSString

/-- The functions of the scripts that are handed to the browser as listeners. -/
inductive Listener where
  | runPushManager
deriving DecidableEq, Repr

/-- An observable effect of the page script: a call into the browser, with what it
gave back. -/
inductive Event where
  | console (level : Level) (message : JSString) (arg : Option LogArg)
  | register (scriptURL : JSString) (result : Outcome Registration)
  | requestPermission (result : Outcome JSString)
  | subscribe (registration : Registration) (options : SubscribeOptions)
      (result : Outcome PushSubscription)
  | fetch (url : JSString) (init : RequestInit) (result : Outcome Response)
  | addEventListener (type : JSString) (listener : Listener)
deriving DecidableEq

/-- An observable effect of the worker script. -/
inductive WorkerEvent where
  | console (level : Level) (message : JSString)
  | showNotification (title : JSValue) (options : NotificationOptions)

/-- The event is a call of `navigator.serviceWorker.register`. -/
def Event.isRegister : Event → Bool
  | .register _ _ => true
  | _ => false

/-- The event is a call of `Notification.requestPermission`. -/
def Event.isRequestPermission : Event → Bool
  | .requestPermission _ => true
  | _ => false

/-- The event is a call of `pushManager.subscribe`. -/
def Event.isSubscribe : Event → Bool
  | .subscribe _ _ _ => true
  | _ => false

/-- The event is a call of `fetch`. -/
def Event.isFetch : Event → Bool
  | .fetch _ _ _ => true
  | _ => false

/-- The event is a call of `console.warn`. -/
def Event.isWarning : Event → Bool
  | .console .warn _ _ => true
  | _ => false

/-- The event is a call of `window.addEventListener`. -/
def Event.isAddEventListener : Event → Bool
  | .addEventListener _ _ => true
  | _ => false

/-- The event is a call of `showNotification`. -/
def WorkerEvent.isShowNotification : WorkerEvent → Bool
  | .showNotification _ _ => true
  | _ => false

/-- A computation with effects of type `ε`: how it ended and the effects it
performed, in order. For an `async` function `threw` is a rejected promise. -/
structure Run (ε α : Type) where
  outcome : Outcome α
  trace : List ε

/-- Sequencing: a throw skips what follows. -/
def Run.bind {ε α β : Type} (m : Run ε α) (f : α → Run ε β) : Run ε β :=
  match m.outcome with
  | .returned a => ⟨(f a).outcome, m.trace ++ (f a).trace⟩
  | .threw e => ⟨.threw e, m.trace⟩

instance {ε : Type} : Monad (Run ε) where
  pure a := ⟨.returned a, []⟩
  bind := Run.bind

/-- A call into the browser (awaited where the source awaits it). -/
def perform {ε α : Type} (ev : ε) (result : Outcome α) : Run ε α := ⟨result, [ev]⟩

/-- An effect-free evaluation that may throw. -/
def evaluate {ε α : Type} (result : Outcome α) : Run ε α := ⟨result, []⟩

/-- A console call of the page script. -/
def consoleCall (level : Level) (message : JSString) (arg : Option LogArg) : Run Event Unit :=
  perform (.console level message arg) (.returned ())

/-- The statement `try body catch (err) handler`. -/
def tryCatch {ε : Type} (body : Run ε Unit) (handler : JSError → Run ε Unit) : Run ε Unit :=
  match body.outcome with
  | .returned _ => body
  | .threw err => ⟨(handler err).outcome, body.trace ++ (handler err).trace⟩

/-! ## The page: `static/push-manager.js` -/

/-- What the browser and the outside world answer. The built-ins behind `register`,
`requestPermission`, `subscribe` and `fetch` may resolve or reject; `JSON.stringify`
of a push subscription returns a string. `vapidPublicKey` is `none` when
`window.vapidPublicKey` is undefined. -/
structure Env where
  vapidPublicKey : Option JSString
  serviceWorkerInNavigator : Bool
  pushManagerInWindow : Bool
  register : JSString → Outcome Registration
  requestPermission : Outcome JSString
  subscribe : Registration → SubscribeOptions → Outcome PushSubscription
  stringify : PushSubscription → JSString
  fetch : JSString → RequestInit → Outcome Response

/-- The body of the `try` block of `runPushManager` (lines 13-42). -/
def runPushManager.tryBody (env : Env) (VAPID_PUBLIC_KEY : JSString) : Run Event Unit := do
  consoleCall .log (js "push-manager.js: Attempting to register service worker at /service-worker.js") none
  let registration ← perform (.register (js "/service-worker.js") (env.register (js "/service-worker.js")))
    (env.register (js "/service-worker.js"))
  consoleCall .log (js "push-manager.js: Service Worker registration successful. Scope:")
    (some (.str registration.scope))
  let permission ← perform (.requestPermission env.requestPermission) env.requestPermission
  if permission ≠ js "granted" then
    consoleCall .warn (js "push-manager.js: Notification permission was not granted.") none
    return
  consoleCall .log (js "push-manager.js: Notification permission granted.") none
  let applicationServerKey ← evaluate (urlBase64ToUint8Array VAPID_PUBLIC_KEY)
  let options : SubscribeOptions :=
    { userVisibleOnly := true, applicationServerKey := applicationServerKey }
  let subscription ← perform (.subscribe registration options (env.subscribe registration options))
    (env.subscribe registration options)
  consoleCall .log (js "push-manager.js: User subscription successful.") none
  let init : RequestInit :=
    { method := js "POST"
      body := env.stringify subscription
      headers := [(js "content-type", js "application/json")] }
  let response ← perform (.fetch (js "/save-subscription") init (env.fetch (js "/save-subscription") init))
    (env.fetch (js "/save-subscription") init)
  if response.ok then
    consoleCall .log (js "push-manager.js: Subscription sent to server successfully.") none
  else
    consoleCall .error (js "push-manager.js: Failed to send subscription to server.") none

/-- The function `runPushManager` (lines 3-47). The guard `!VAPID_PUBLIC_KEY` holds
for `undefined` and for the empty string. -/
def runPushManager (env : Env) : Run Event Unit :=
  match env.vapidPublicKey with
  | some (c :: cs) => do
    consoleCall .log (js "push-manager.js: VAPID key found.") none
    tryCatch (runPushManager.tryBody env (c :: cs)) (fun err =>
      consoleCall .error (js "push-manager.js: A critical error occurred in runPushManager: ")
        (some (.err err)))
  | _ =>
    consoleCall .error (js "push-manager.js: VAPID_PUBLIC_KEY not found on window object. Aborting.")
      none

/-- The top level of `push-manager.js` (lines 1 and 60-65). -/
def pushManagerScript (env : Env) : Run Event Unit := do
  consoleCall .log (js "push-manager.js: Script started.") none
  if env.serviceWorkerInNavigator && env.pushManagerInWindow then
    perform (.addEventListener (js "load") .runPushManager) (.returned ())
  else
    consoleCall .warn (js "push-manager.js: This browser does not support push notifications.") none

/-- The listeners a trace registered for an event type, in order. -/
def listenersFor (type : JSString) : List Event → List Listener
  | [] => []
  | .addEventListener t l :: rest =>
    if t = type then l :: listenersFor type rest else listenersFor type rest
  | _ :: rest => listenersFor type rest

/-- Calling a listener. -/
def Listener.invoke : Listener → Env → Run Event Unit
  | .runPushManager, env => PushClient.runPushManager env

/-- The effects of a page that includes the script: the script runs, then the
`load` event calls the listeners registered for it. -/
def pageTrace (env : Env) : List Event :=
  (pushManagerScript env).trace ++
    ((listenersFor (js "load") (pushManagerScript env).trace).map
      (fun l => (l.invoke env).trace)).flatten

/-! ## The worker: `service-worker.js` -/

/-- The error of reading a property of `null` or `undefined`. -/
def typeError : JSError := ⟨js "TypeError"⟩

/-- Reading a property that no prototype defines (such as `title` and `body`). -/
def getProp (v : JSValue) (key : JSString) : Outcome JSValue :=
  match v with
  | .undefined => .threw typeError
  | .null => .threw typeError
  | .object fields => .returned ((fields.lookup key).getD .undefined)
  | _ => .returned .undefined

/-- A push event: `data` is `none` when the message has no payload, otherwise it
holds what `e.data.json()` gives (the parsed value, or the parse error). -/
structure PushEvent where
  data : Option (Outcome JSValue)

/-- The icon URL of line 10. -/
def notificationIcon : JSString := js "https://img.icons8.com/fluency/48/heart-with-pulse.png"

/-- The `push` listener (lines 5-12). -/
def pushListener (e : PushEvent) : Run WorkerEvent Unit := do
  let data ← evaluate (match e.data with
    | none => .threw typeError
    | some parsed => parsed)
  perform (.console .log (js "Push Received...")) (.returned ())
  let title ← evaluate (getProp data (js "title"))
  let body ← evaluate (getProp data (js "body"))
  perform (.showNotification title { body := body, icon := notificationIcon }) (.returned ())

/-! ## Sample inputs -/

/-- A sample VAPID public key of 87 characters. -/
def sampleKey : JSString :=
  js "BEl62iUYgUivxIkv69yViEuiBIa-Ib9-SkvMeAtA3LFgDzkrxZJjSgSnfckjBJuBkr3qBUYIHBQFLXYp5Nksh8U"

/-- A sample registration. -/
def sampleRegistration : Registration := ⟨js "https://app.example/"⟩

/-- A sample push subscription. -/
def sampleSubscription : PushSubscription :=
  ⟨js "https://push.example/send/1", js "BNcRd", js "tBHI"⟩

/-- A browser in which every step succeeds; the key `AQAB` decodes to 1, 0, 1. -/
def envGranted : Env :=
  { vapidPublicKey := some (js "AQAB")
    serviceWorkerInNavigator := true
    pushManagerInWindow := true
    register := fun _ => .returned sampleRegistration
    requestPermission := .returned (js "granted")
    subscribe := fun _ _ => .returned sampleSubscription
    stringify := fun sub => sub.endpoint
    fetch := fun _ _ => .returned ⟨true⟩ }

/-- The page did not set `window.vapidPublicKey`. -/
def envUndefinedKey : Env := { envGranted with vapidPublicKey := none }

/-- The user denies the permission. -/
def envDenied : Env := { envGranted with requestPermission := .returned (js "denied") }

/-- Registration rejects. -/
def envRegisterFails : Env :=
  { envGranted with register := fun _ => .threw ⟨js "SecurityError"⟩ }

/-- The permission request rejects. -/
def envPermissionFails : Env :=
  { envGranted with requestPermission := .threw ⟨js "TypeError"⟩ }

/-- The key has a length that leaves remainder 1, so its conversion throws. -/
def envBadKey : Env := { envGranted with vapidPublicKey := some (js "A") }

/-- The push service rejects the subscription. -/
def envSubscribeFails : Env :=
  { envGranted with subscribe := fun _ _ => .threw ⟨js "AbortError"⟩ }

/-- The network request rejects. -/
def envFetchFails : Env := { envGranted with fetch := fun _ _ => .threw ⟨js "TypeError"⟩ }

/-- A browser without service workers. -/
def envUnsupported : Env := { envGranted with serviceWorkerInNavigator := false }

/-- The fields of the payload with title T and body B. -/
def samplePayload : List (JSString × JSValue) :=
  [(js "title", .string (js "T")), (js "body", .string (js "B"))]

/-! ## Lemmas on the decoder -/

theorem toNat_decide_mod_two (x : Nat) : (decide (x % 2 = 1)).toNat = x % 2 := by
  rcases Nat.mod_two_eq_zero_or_one x with h | h <;> simp [h]

theorem base64Value_getD_lt (c : Nat) : (base64Value c).getD 0 < 64 := by
  unfold base64Value
  split_ifs <;> simp <;> omega

theorem base64urlValue_getD_lt (c : Nat) : (base64urlValue c).getD 0 < 64 := by
  unfold base64urlValue
  split_ifs <;> simp <;> omega

/-- First octet: the six bits of `v0` and the two high bits of `v1`. -/
theorem firstOctet_bits (v0 v1 : Nat) (h0 : v0 < 64) (h1 : v1 < 64) :
    2 * (2 * (2 * (2 * (2 * (2 * (2 * (2 * 0 + v0 / 32 % 2) + v0 / 16 % 2) + v0 / 8 % 2)
      + v0 / 4 % 2) + v0 / 2 % 2) + v0 / 1 % 2) + v1 / 32 % 2) + v1 / 16 % 2
      = v0 * 4 + v1 / 16 := by
  omega

/-- Second octet: the four low bits of `v1` and the four high bits of `v2`. -/
theorem secondOctet_bits (v1 v2 : Nat) (h2 : v2 < 64) :
    2 * (2 * (2 * (2 * (2 * (2 * (2 * (2 * 0 + v1 / 8 % 2) + v1 / 4 % 2) + v1 / 2 % 2)
      + v1 / 1 % 2) + v2 / 32 % 2) + v2 / 16 % 2) + v2 / 8 % 2) + v2 / 4 % 2
      = v1 % 16 * 16 + v2 / 4 := by
  omega

/-- Third octet: the two low bits of `v2` and the six bits of `v3`. -/
theorem thirdOctet_bits (v2 v3 : Nat) (h3 : v3 < 64) :
    2 * (2 * (2 * (2 * (2 * (2 * (2 * (2 * 0 + v2 / 2 % 2) + v2 / 1 % 2) + v3 / 32 % 2)
      + v3 / 16 % 2) + v3 / 8 % 2) + v3 / 4 % 2) + v3 / 2 % 2) + v3 / 1 % 2
      = v2 % 4 * 64 + v3 := by
  omega

/-- Four characters fill the buffer to 24 bits, which leave it as three bytes. -/
theorem decodeLoop_four (c0 c1 c2 c3 : Nat) (rest : JSString) (out : List Nat) :
    decodeLoop (c0 :: c1 :: c2 :: c3 :: rest) [] out =
      decodeLoop rest [] (out ++ octetsOfSextets
        [(base64Value c0).getD 0, (base64Value c1).getD 0, (base64Value c2).getD 0,
          (base64Value c3).getD 0]) := by
  have h0 := base64Value_getD_lt c0
  have h1 := base64Value_getD_lt c1
  have h2 := base64Value_getD_lt c2
  have h3 := base64Value_getD_lt c3
  simp only [decodeLoop, sixBits, bitAt, octetsOfSextets, List.nil_append, List.cons_append,
    List.length_cons, List.length_nil, bitsToNat, List.take, List.drop, List.foldl,
    toNat_decide_mod_two]
  simp only [Nat.reduceAdd, Nat.reduceEqDiff, if_false, if_true, Nat.reducePow]
  generalize (base64Value c0).getD 0 = v0 at h0 ⊢
  generalize (base64Value c1).getD 0 = v1 at h1 ⊢
  generalize (base64Value c2).getD 0 = v2 at h2 ⊢
  generalize (base64Value c3).getD 0 = v3 at h3 ⊢
  rw [firstOctet_bits v0 v1 h0 h1, secondOctet_bits v1 v2 h2, thirdOctet_bits v2 v3 h3]

/-- The bit-buffer loop computes the octets of RFC 4648 from the 6-bit values. -/
theorem decodeLoop_eq : ∀ (data : JSString) (out : List Nat),
    decodeLoop data [] out = out ++ octetsOfSextets (data.map (fun c => (base64Value c).getD 0))
  | [], out => by simp [decodeLoop, octetsOfSextets]
  | [c0], out => by simp [decodeLoop, octetsOfSextets, sixBits]
  | [c0, c1], out => by
    have h0 := base64Value_getD_lt c0
    have h1 := base64Value_getD_lt c1
    simp only [decodeLoop, sixBits, bitAt, octetsOfSextets, List.nil_append, List.cons_append,
      List.length_cons, List.length_nil, bitsToNat, List.take, List.foldl, List.map,
      toNat_decide_mod_two]
    simp only [Nat.reduceAdd, Nat.reduceEqDiff, if_false, if_true, Nat.reducePow]
    generalize (base64Value c0).getD 0 = v0 at h0 ⊢
    generalize (base64Value c1).getD 0 = v1 at h1 ⊢
    rw [firstOctet_bits v0 v1 h0 h1]
  | [c0, c1, c2], out => by
    have h0 := base64Value_getD_lt c0
    have h1 := base64Value_getD_lt c1
    have h2 := base64Value_getD_lt c2
    simp only [decodeLoop, sixBits, bitAt, octetsOfSextets, List.nil_append, List.cons_append,
      List.length_cons, List.length_nil, bitsToNat, List.take, List.drop, List.foldl, List.map,
      toNat_decide_mod_two]
    simp only [Nat.reduceAdd, Nat.reduceEqDiff, if_false, if_true, Nat.reducePow]
    generalize (base64Value c0).getD 0 = v0 at h0 ⊢
    generalize (base64Value c1).getD 0 = v1 at h1 ⊢
    generalize (base64Value c2).getD 0 = v2 at h2 ⊢
    rw [firstOctet_bits v0 v1 h0 h1, secondOctet_bits v1 v2 h2]
  | c0 :: c1 :: c2 :: c3 :: rest, out => by
    rw [decodeLoop_four, decodeLoop_eq rest]
    simp [octetsOfSextets]

theorem octetsOfSextets_length : ∀ (vs : List Nat), (octetsOfSextets vs).length = 3 * vs.length / 4
  | [] => by simp [octetsOfSextets]
  | [_] => by simp [octetsOfSextets]
  | [_, _] => by simp [octetsOfSextets]
  | [_, _, _] => by simp [octetsOfSextets]
  | _ :: _ :: _ :: _ :: rest => by
    simp only [octetsOfSextets, List.length_cons, octetsOfSextets_length rest]
    omega

theorem octetsOfSextets_lt : ∀ (vs : List Nat), (∀ v ∈ vs, v < 64) →
    ∀ b ∈ octetsOfSextets vs, b < 256
  | [], _ => by simp [octetsOfSextets]
  | [_], _ => by simp [octetsOfSextets]
  | [v0, v1], h => by
    have h0 := h v0 (by simp)
    have h1 := h v1 (by simp)
    simp only [octetsOfSextets, List.mem_singleton]
    intro b hb
    omega
  | [v0, v1, v2], h => by
    have h0 := h v0 (by simp)
    have h1 := h v1 (by simp)
    have h2 := h v2 (by simp)
    simp only [octetsOfSextets, List.mem_cons, List.mem_singleton]
    intro b hb
    simp only [List.not_mem_nil, or_false] at hb
    omega
  | v0 :: v1 :: v2 :: v3 :: rest, h => by
    have h0 := h v0 (by simp)
    have h1 := h v1 (by simp)
    have h2 := h v2 (by simp)
    have h3 := h v3 (by simp)
    have ih := octetsOfSextets_lt rest (fun v hv => h v (by simp [hv]))
    simp only [octetsOfSextets, List.mem_cons]
    intro b hb
    rcases hb with hb | hb | hb | hb
    · omega
    · omega
    · omega
    · exact ih b hb

/-! ## Lemmas on `atob` for the strings the key conversion builds -/

theorem base64Value_isSome_bounds (c : Nat) (h : (base64Value c).isSome = true) :
    43 ≤ c ∧ c ≤ 122 ∧ c ≠ chEq := by
  unfold base64Value at h
  simp only [chPlus, chSlash, chEq] at *
  split_ifs at h <;> first | omega | simp at h

theorem codePointLength_eq_length : ∀ (l : JSString), (∀ c ∈ l, c < 0xD800) →
    codePointLength l = l.length
  | [], _ => by simp [codePointLength]
  | [_], _ => by simp [codePointLength]
  | a :: b :: rest, h => by
    have ha : isLeadSurrogate a = false := by
      have := h a (by simp)
      simp [isLeadSurrogate]
      omega
    have ih := codePointLength_eq_length (b :: rest) (fun c hc => h c (by simp [hc]))
    simp [codePointLength, ha, ih]

theorem filter_whitespace_eq (l : JSString) (h : ∀ c ∈ l, 43 ≤ c) :
    l.filter (fun c => !isAsciiWhitespace c) = l := by
  rw [List.filter_eq_self]
  intro c hc
  have := h c hc
  simp [isAsciiWhitespace]
  omega

theorem endsWithEq_false (t : JSString) (h : ∀ c ∈ t, c ≠ chEq) : endsWithEq t = false := by
  unfold endsWithEq
  rcases List.eq_nil_or_concat t with rfl | ⟨l, a, rfl⟩
  · simp
  · have := h a (by simp)
    simpa using this

theorem removeTrailingEq_padded (t : JSString) (k : Nat) (h : ∀ c ∈ t, c ≠ chEq) (hk : k ≤ 2) :
    removeTrailingEq (t ++ List.replicate k chEq) = t := by
  have hf := endsWithEq_false t h
  have h1 : endsWithEq (t ++ [chEq]) = true := by simp [endsWithEq]
  have h2 : endsWithEq (t ++ [chEq, chEq]) = true := by simp [endsWithEq]
  have d1 : (t ++ [chEq]).dropLast = t := by simp
  have d2 : (t ++ [chEq, chEq]).dropLast = t ++ [chEq] := by
    rw [show t ++ [chEq, chEq] = (t ++ [chEq]) ++ [chEq] by simp, List.dropLast_concat]
  unfold removeTrailingEq
  rcases (by omega : k = 0 ∨ k = 1 ∨ k = 2) with rfl | rfl | rfl
  · simp [hf]
  · simp only [List.replicate, h1, d1, hf]; simp
  · simp only [List.replicate, h2, d2, h1, d1]; simp

/-- On a string of alphabet characters followed by at most two padding signs that
complete the last group, `atob` does not fail and runs the loop on the characters. -/
theorem forgivingBase64Decode_padded (t : JSString) (k : Nat)
    (ht : ∀ c ∈ t, (base64Value c).isSome = true) (hk : k ≤ 2)
    (hlen : (t.length + k) % 4 = 0) :
    forgivingBase64Decode (t ++ List.replicate k chEq) = some (decodeLoop t [] []) := by
  have hb : ∀ c ∈ t, 43 ≤ c ∧ c ≤ 122 ∧ c ≠ chEq := fun c hc => base64Value_isSome_bounds c (ht c hc)
  have hall : ∀ c ∈ t ++ List.replicate k chEq, 43 ≤ c ∧ c < 0xD800 := by
    intro c hc
    rcases List.mem_append.mp hc with hc | hc
    · have := hb c hc
      omega
    · have := (List.mem_replicate.mp hc).2
      simp [chEq] at this
      omega
  have hfilter := filter_whitespace_eq (t ++ List.replicate k chEq) (fun c hc => (hall c hc).1)
  have hcp := codePointLength_eq_length (t ++ List.replicate k chEq) (fun c hc => (hall c hc).2)
  have hcpt := codePointLength_eq_length t (fun c hc => by have := hb c hc; omega)
  have hrem := removeTrailingEq_padded t k (fun c hc => (hb c hc).2.2) hk
  have hany : t.any (fun c => (base64Value c).isNone) = false := by
    rw [List.any_eq_false]
    intro c hc
    have := ht c hc
    simp [Option.isSome_iff_exists] at this
    obtain ⟨v, hv⟩ := this
    simp [hv]
  unfold forgivingBase64Decode
  simp only [hfilter, hcp, List.length_append, List.length_replicate, hlen, if_true, hrem, hcpt,
    hany]
  have : ¬ t.length % 4 = 1 := by omega
  simp [this]

/-! ## Lemmas on `urlBase64ToUint8Array` -/

theorem base64Of_eq (s : JSString) :
    base64Of s =
      s.map (fun x => if (if x = chMinus then chPlus else x) = chUnderscore then chSlash
        else (if x = chMinus then chPlus else x))
      ++ List.replicate ((4 - s.length % 4) % 4) chEq := by
  simp [base64Of, paddingOf, replaceAll, repeatChar, chEq, chMinus, chPlus, chUnderscore, chSlash]

theorem base64Value_replaced (c : Nat) (h : isBase64urlChar c = true) :
    base64Value (if (if c = chMinus then chPlus else c) = chUnderscore then chSlash
        else (if c = chMinus then chPlus else c)) = base64urlValue c := by
  unfold isBase64urlChar base64urlValue at h
  unfold base64Value base64urlValue
  simp only [chMinus, chPlus, chUnderscore, chSlash] at *
  by_cases h1 : c = 45
  · subst h1; simp
  · by_cases h2 : c = 95
    · subst h2; simp
    · simp only [h1, h2, if_false] at h ⊢
      split_ifs at h ⊢ <;> first | rfl | omega | simp at h

theorem fillArray_steps (rawData : JSString) : ∀ k, k ≤ rawData.length →
    (List.range k).foldl
        (fun outputArray i => outputArray.set i (charCodeAt rawData i % 256))
        (List.replicate rawData.length 0)
      = (rawData.take k).map (fun b => b % 256) ++ List.replicate (rawData.length - k) 0
  | 0, _ => by simp
  | k + 1, hk => by
    have hlt : k < rawData.length := hk
    rw [List.range_succ, List.foldl_append, fillArray_steps rawData k (by omega)]
    simp only [List.foldl_cons, List.foldl_nil]
    have hlen : ((rawData.take k).map (fun b => b % 256)).length = k := by
      simp [List.length_take]; omega
    rw [List.set_append_right _ _ (by omega), hlen, Nat.sub_self]
    have hrep : List.replicate (rawData.length - k) 0
        = 0 :: List.replicate (rawData.length - (k + 1)) 0 := by
      rw [← List.replicate_succ]; congr 1; omega
    rw [hrep, List.set_cons_zero]
    have htake : rawData.take (k + 1) = rawData.take k ++ [rawData[k]] := by
      rw [List.take_succ]; simp [List.getElem?_eq_getElem hlt]
    have hcc : charCodeAt rawData k = rawData[k] := by
      simp [charCodeAt, List.getD, List.getElem?_eq_getElem hlt]
    rw [htake, hcc]
    simp only [List.map_append, List.map_cons, List.map_nil, List.append_assoc,
      List.singleton_append]

/-- The copy loop stores every code unit of `rawData` modulo 256. -/
theorem fillArray_eq_map (rawData : JSString) : fillArray rawData = rawData.map (fun b => b % 256) := by
  unfold fillArray
  rw [fillArray_steps rawData rawData.length (le_refl _)]
  simp

theorem fillArray_eq_self (rawData : JSString) (h : ∀ b ∈ rawData, b < 256) :
    fillArray rawData = rawData := by
  rw [fillArray_eq_map]
  conv_rhs => rw [← List.map_id rawData]
  apply List.map_congr_left
  intro b hb
  exact Nat.mod_eq_of_lt (h b hb)

/-- On a valid base64url string `atob` returns the RFC 4648 octets. -/
theorem atob_base64Of_valid (s : JSString) (h : ValidBase64url s) :
    atob (base64Of s) = .returned (base64urlDecode s) := by
  obtain ⟨hchars, hlen⟩ := h
  have hk : (4 - s.length % 4) % 4 ≤ 2 := by omega
  have hmap : ∀ c ∈ s.map (fun x => if (if x = chMinus then chPlus else x) = chUnderscore
      then chSlash else (if x = chMinus then chPlus else x)), (base64Value c).isSome = true := by
    intro c hc
    obtain ⟨x, hx, rfl⟩ := List.mem_map.mp hc
    rw [base64Value_replaced x (hchars x hx)]
    exact hchars x hx
  have hdec := forgivingBase64Decode_padded _ _ hmap hk (by simp; omega)
  unfold atob
  rw [base64Of_eq, hdec, decodeLoop_eq]
  simp only [List.nil_append, List.map_map, base64urlDecode]
  congr 2
  apply List.map_congr_left
  intro c hc
  simp only [Function.comp]
  rw [base64Value_replaced c (hchars c hc)]

theorem base64urlDecode_lt (s : JSString) : ∀ b ∈ base64urlDecode s, b < 256 := by
  apply octetsOfSextets_lt
  intro v hv
  obtain ⟨c, _, rfl⟩ := List.mem_map.mp hv
  exact base64urlValue_getD_lt c

theorem base64urlDecode_length (s : JSString) : (base64urlDecode s).length = 3 * s.length / 4 := by
  simp [base64urlDecode, octetsOfSextets_length]

/-- On a valid base64url string the conversion returns the RFC 4648 octets. -/
theorem urlBase64ToUint8Array_valid (s : JSString) (h : ValidBase64url s) :
    urlBase64ToUint8Array s = .returned (base64urlDecode s) := by
  unfold urlBase64ToUint8Array
  rw [atob_base64Of_valid s h]
  simp [fillArray_eq_self _ (base64urlDecode_lt s)]

/-- Three padding signs at the end make `atob` fail, whatever precedes them. -/
theorem forgivingBase64Decode_three_eq (t : JSString) :
    forgivingBase64Decode (t ++ [chEq, chEq, chEq]) = none := by
  have hf : (t ++ [chEq, chEq, chEq]).filter (fun c => !isAsciiWhitespace c)
      = t.filter (fun c => !isAsciiWhitespace c) ++ [chEq, chEq, chEq] := by
    simp [List.filter_append, List.filter_cons, isAsciiWhitespace, chEq]
  unfold forgivingBase64Decode
  simp only [hf]
  generalize t.filter (fun c => !isAsciiWhitespace c) = w
  have hr : removeTrailingEq (w ++ [chEq, chEq, chEq]) = w ++ [chEq] := by
    have e3 : endsWithEq (w ++ [chEq, chEq, chEq]) = true := by simp [endsWithEq]
    have e2 : endsWithEq (w ++ [chEq, chEq]) = true := by simp [endsWithEq]
    have d3 : (w ++ [chEq, chEq, chEq]).dropLast = w ++ [chEq, chEq] := by
      rw [show w ++ [chEq, chEq, chEq] = (w ++ [chEq, chEq]) ++ [chEq] by simp,
        List.dropLast_concat]
    have d2 : (w ++ [chEq, chEq]).dropLast = w ++ [chEq] := by
      rw [show w ++ [chEq, chEq] = (w ++ [chEq]) ++ [chEq] by simp, List.dropLast_concat]
    simp only [removeTrailingEq, e3, d3, e2, d2, if_true]
  have hv : (base64Value chEq).isNone = true := by decide
  have hany1 : (w ++ [chEq]).any (fun c => (base64Value c).isNone) = true := by
    simp [List.any_append, hv]
  have hany3 : (w ++ [chEq, chEq, chEq]).any (fun c => (base64Value c).isNone) = true := by
    simp [List.any_append, hv]
  simp only [hr]
  split_ifs <;> simp_all

theorem paddingOf_length (s : JSString) : (paddingOf s).length = (4 - s.length % 4) % 4 := by
  simp [paddingOf, repeatChar]

/-- A string whose length leaves remainder 1 makes the conversion throw. -/
theorem urlBase64ToUint8Array_throws (s : JSString) (h : s.length % 4 = 1) :
    atob (base64Of s) = .threw invalidCharacterError ∧
      urlBase64ToUint8Array s = .threw invalidCharacterError := by
  have hk : (4 - s.length % 4) % 4 = 3 := by omega
  have hb : atob (base64Of s) = .threw invalidCharacterError := by
    unfold atob
    rw [base64Of_eq, hk]
    simp only [List.replicate]
    rw [forgivingBase64Decode_three_eq]
  exact ⟨hb, by simp [urlBase64ToUint8Array, hb]⟩

/-! ## Lemmas on the workflow -/

/-- All runs of `runPushManager`, by the first step that ends the workflow. -/
theorem runPushManager_cases (env : Env) (P : Run Event Unit → Prop)
    (hAbsent : env.vapidPublicKey = none ∨ env.vapidPublicKey = some [] →
      P ⟨.returned (), [.console .error
        (js "push-manager.js: VAPID_PUBLIC_KEY not found on window object. Aborting.") none]⟩)
    (hRegister : ∀ k e, env.vapidPublicKey = some k → k ≠ [] →
      env.register (js "/service-worker.js") = .threw e →
      P ⟨.returned (), [.console .log (js "push-manager.js: VAPID key found.") none,
        .console .log (js "push-manager.js: Attempting to register service worker at /service-worker.js") none,
        .register (js "/service-worker.js") (.threw e),
        .console .error (js "push-manager.js: A critical error occurred in runPushManager: ")
          (some (.err e))]⟩)
    (hPermission : ∀ k reg e, env.vapidPublicKey = some k → k ≠ [] →
      env.register (js "/service-worker.js") = .returned reg →
      env.requestPermission = .threw e →
      P ⟨.returned (), [.console .log (js "push-manager.js: VAPID key found.") none,
        .console .log (js "push-manager.js: Attempting to register service worker at /service-worker.js") none,
        .register (js "/service-worker.js") (.returned reg),
        .console .log (js "push-manager.js: Service Worker registration successful. Scope:")
          (some (.str reg.scope)),
        .requestPermission (.threw e),
        .console .error (js "push-manager.js: A critical error occurred in runPushManager: ")
          (some (.err e))]⟩)
    (hDenied : ∀ k reg p, env.vapidPublicKey = some k → k ≠ [] →
      env.register (js "/service-worker.js") = .returned reg →
      env.requestPermission = .returned p → p ≠ js "granted" →
      P ⟨.returned (), [.console .log (js "push-manager.js: VAPID key found.") none,
        .console .log (js "push-manager.js: Attempting to register service worker at /service-worker.js") none,
        .register (js "/service-worker.js") (.returned reg),
        .console .log (js "push-manager.js: Service Worker registration successful. Scope:")
          (some (.str reg.scope)),
        .requestPermission (.returned p),
        .console .warn (js "push-manager.js: Notification permission was not granted.") none]⟩)
    (hKey : ∀ k reg e, env.vapidPublicKey = some k → k ≠ [] →
      env.register (js "/service-worker.js") = .returned reg →
      env.requestPermission = .returned (js "granted") →
      urlBase64ToUint8Array k = .threw e →
      P ⟨.returned (), [.console .log (js "push-manager.js: VAPID key found.") none,
        .console .log (js "push-manager.js: Attempting to register service worker at /service-worker.js") none,
        .register (js "/service-worker.js") (.returned reg),
        .console .log (js "push-manager.js: Service Worker registration successful. Scope:")
          (some (.str reg.scope)),
        .requestPermission (.returned (js "granted")),
        .console .log (js "push-manager.js: Notification permission granted.") none,
        .console .error (js "push-manager.js: A critical error occurred in runPushManager: ")
          (some (.err e))]⟩)
    (hSubscribe : ∀ k reg bytes e, env.vapidPublicKey = some k → k ≠ [] →
      env.register (js "/service-worker.js") = .returned reg →
      env.requestPermission = .returned (js "granted") →
      urlBase64ToUint8Array k = .returned bytes →
      env.subscribe reg ⟨true, bytes⟩ = .threw e →
      P ⟨.returned (), [.console .log (js "push-manager.js: VAPID key found.") none,
        .console .log (js "push-manager.js: Attempting to register service worker at /service-worker.js") none,
        .register (js "/service-worker.js") (.returned reg),
        .console .log (js "push-manager.js: Service Worker registration successful. Scope:")
          (some (.str reg.scope)),
        .requestPermission (.returned (js "granted")),
        .console .log (js "push-manager.js: Notification permission granted.") none,
        .subscribe reg ⟨true, bytes⟩ (.threw e),
        .console .error (js "push-manager.js: A critical error occurred in runPushManager: ")
          (some (.err e))]⟩)
    (hFetch : ∀ k reg bytes sub e, env.vapidPublicKey = some k → k ≠ [] →
      env.register (js "/service-worker.js") = .returned reg →
      env.requestPermission = .returned (js "granted") →
      urlBase64ToUint8Array k = .returned bytes →
      env.subscribe reg ⟨true, bytes⟩ = .returned sub →
      env.fetch (js "/save-subscription")
        ⟨js "POST", env.stringify sub, [(js "content-type", js "application/json")]⟩ = .threw e →
      P ⟨.returned (), [.console .log (js "push-manager.js: VAPID key found.") none,
        .console .log (js "push-manager.js: Attempting to register service worker at /service-worker.js") none,
        .register (js "/service-worker.js") (.returned reg),
        .console .log (js "push-manager.js: Service Worker registration successful. Scope:")
          (some (.str reg.scope)),
        .requestPermission (.returned (js "granted")),
        .console .log (js "push-manager.js: Notification permission granted.") none,
        .subscribe reg ⟨true, bytes⟩ (.returned sub),
        .console .log (js "push-manager.js: User subscription successful.") none,
        .fetch (js "/save-subscription")
          ⟨js "POST", env.stringify sub, [(js "content-type", js "application/json")]⟩ (.threw e),
        .console .error (js "push-manager.js: A critical error occurred in runPushManager: ")
          (some (.err e))]⟩)
    (hSent : ∀ k reg bytes sub resp, env.vapidPublicKey = some k → k ≠ [] →
      env.register (js "/service-worker.js") = .returned reg →
      env.requestPermission = .returned (js "granted") →
      urlBase64ToUint8Array k = .returned bytes →
      env.subscribe reg ⟨true, bytes⟩ = .returned sub →
      env.fetch (js "/save-subscription")
        ⟨js "POST", env.stringify sub, [(js "content-type", js "application/json")]⟩
          = .returned resp →
      resp.ok = true →
      P ⟨.returned (), [.console .log (js "push-manager.js: VAPID key found.") none,
        .console .log (js "push-manager.js: Attempting to register service worker at /service-worker.js") none,
        .register (js "/service-worker.js") (.returned reg),
        .console .log (js "push-manager.js: Service Worker registration successful. Scope:")
          (some (.str reg.scope)),
        .requestPermission (.returned (js "granted")),
        .console .log (js "push-manager.js: Notification permission granted.") none,
        .subscribe reg ⟨true, bytes⟩ (.returned sub),
        .console .log (js "push-manager.js: User subscription successful.") none,
        .fetch (js "/save-subscription")
          ⟨js "POST", env.stringify sub, [(js "content-type", js "application/json")]⟩
          (.returned resp),
        .console .log (js "push-manager.js: Subscription sent to server successfully.") none]⟩)
    (hNotSent : ∀ k reg bytes sub resp, env.vapidPublicKey = some k → k ≠ [] →
      env.register (js "/service-worker.js") = .returned reg →
      env.requestPermission = .returned (js "granted") →
      urlBase64ToUint8Array k = .returned bytes →
      env.subscribe reg ⟨true, bytes⟩ = .returned sub →
      env.fetch (js "/save-subscription")
        ⟨js "POST", env.stringify sub, [(js "content-type", js "application/json")]⟩
          = .returned resp →
      resp.ok = false →
      P ⟨.returned (), [.console .log (js "push-manager.js: VAPID key found.") none,
        .console .log (js "push-manager.js: Attempting to register service worker at /service-worker.js") none,
        .register (js "/service-worker.js") (.returned reg),
        .console .log (js "push-manager.js: Service Worker registration successful. Scope:")
          (some (.str reg.scope)),
        .requestPermission (.returned (js "granted")),
        .console .log (js "push-manager.js: Notification permission granted.") none,
        .subscribe reg ⟨true, bytes⟩ (.returned sub),
        .console .log (js "push-manager.js: User subscription successful.") none,
        .fetch (js "/save-subscription")
          ⟨js "POST", env.stringify sub, [(js "content-type", js "application/json")]⟩
          (.returned resp),
        .console .error (js "push-manager.js: Failed to send subscription to server.") none]⟩) :
    P (runPushManager env) := by
  rcases hk : env.vapidPublicKey with _ | (_ | ⟨c, cs⟩)
  · have := hAbsent (Or.inl hk)
    simpa [runPushManager, hk, consoleCall, perform] using this
  · have := hAbsent (Or.inr hk)
    simpa [runPushManager, hk, consoleCall, perform] using this
  · have hne : c :: cs ≠ [] := by simp
    cases hr : env.register (js "/service-worker.js") with
    | threw e =>
      have := hRegister _ e hk hne hr
      simpa [runPushManager, hk, runPushManager.tryBody, tryCatch, consoleCall, perform,
        evaluate, bind, Run.bind, hr] using this
    | returned reg =>
      cases hp : env.requestPermission with
      | threw e =>
        have := hPermission _ reg e hk hne hr hp
        simpa [runPushManager, hk, runPushManager.tryBody, tryCatch, consoleCall, perform,
          evaluate, bind, Run.bind, hr, hp] using this
      | returned p =>
        by_cases hg : p = js "granted"
        · subst hg
          cases hu : urlBase64ToUint8Array (c :: cs) with
          | threw e =>
            have := hKey _ reg e hk hne hr hp hu
            simpa [runPushManager, hk, runPushManager.tryBody, tryCatch, consoleCall, perform,
              evaluate, bind, Run.bind, hr, hp, hu, pure] using this
          | returned bytes =>
            cases hs : env.subscribe reg ⟨true, bytes⟩ with
            | threw e =>
              have := hSubscribe _ reg bytes e hk hne hr hp hu hs
              simpa [runPushManager, hk, runPushManager.tryBody, tryCatch, consoleCall, perform,
                evaluate, bind, Run.bind, hr, hp, hu, hs, pure] using this
            | returned sub =>
              cases hf : env.fetch (js "/save-subscription")
                ⟨js "POST", env.stringify sub, [(js "content-type", js "application/json")]⟩ with
              | threw e =>
                have := hFetch _ reg bytes sub e hk hne hr hp hu hs hf
                simpa [runPushManager, hk, runPushManager.tryBody, tryCatch, consoleCall, perform,
                  evaluate, bind, Run.bind, hr, hp, hu, hs, hf, pure] using this
              | returned resp =>
                cases hok : resp.ok with
                | true =>
                  have := hSent _ reg bytes sub resp hk hne hr hp hu hs hf hok
                  simpa [runPushManager, hk, runPushManager.tryBody, tryCatch, consoleCall,
                    perform, evaluate, bind, Run.bind, hr, hp, hu, hs, hf, pure, hok] using this
                | false =>
                  have := hNotSent _ reg bytes sub resp hk hne hr hp hu hs hf hok
                  simpa [runPushManager, hk, runPushManager.tryBody, tryCatch, consoleCall,
                    perform, evaluate, bind, Run.bind, hr, hp, hu, hs, hf, pure, hok] using this
        · have := hDenied _ reg p hk hne hr hp hg
          simpa [runPushManager, hk, runPushManager.tryBody, tryCatch, consoleCall, perform,
            evaluate, bind, Run.bind, hr, hp, hg, pure] using this

/-! ## The claims -/

/-- C1: on every valid unpadded base64url string `s` (alphabet characters only, length
not congruent to 1 modulo 4, so also every 87-character key) `atob` succeeds on the
padded and replaced string, `urlBase64ToUint8Array(s)` returns an array as long as the
decoded string whose byte `i` is the char code of character `i` of it, and that array
is the octet sequence RFC 4648 assigns to `s`. -/
theorem urlBase64ToUint8Array_decodes (s : JSString) (h : ValidBase64url s) :
    ∃ rawData out, atob (base64Of s) = .returned rawData ∧
      urlBase64ToUint8Array s = .returned out ∧
      out.length = rawData.length ∧
      (∀ i, i < out.length → out.getD i 0 = charCodeAt rawData i) ∧
      out = base64urlDecode s :=
  ⟨base64urlDecode s, base64urlDecode s, atob_base64Of_valid s h,
    urlBase64ToUint8Array_valid s h, rfl, fun _ _ => rfl, rfl⟩

theorem urlBase64ToUint8Array_decodes_witness :
    ValidBase64url sampleKey ∧
    ∃ rawData out, atob (base64Of sampleKey) = .returned rawData ∧
      urlBase64ToUint8Array sampleKey = .returned out ∧
      out.length = rawData.length ∧
      (∀ i, i < out.length → out.getD i 0 = charCodeAt rawData i) ∧
      out = base64urlDecode sampleKey :=
  ⟨⟨by decide, by decide⟩, urlBase64ToUint8Array_decodes sampleKey ⟨by decide, by decide⟩⟩

/-- C9: for a string whose length is congruent to 1 modulo 4 the padding is three
padding signs, `atob` fails and `urlBase64ToUint8Array` throws; for every other length
the padding consists of at most two padding signs and is the shortest that makes the
padded length a multiple of 4. -/
theorem urlBase64ToUint8Array_padding (s : JSString) :
    (s.length % 4 = 1 →
      paddingOf s = [chEq, chEq, chEq] ∧
      atob (base64Of s) = .threw invalidCharacterError ∧
      urlBase64ToUint8Array s = .threw invalidCharacterError) ∧
    (s.length % 4 ≠ 1 →
      (paddingOf s).length ≤ 2 ∧
      (∀ c ∈ paddingOf s, c = chEq) ∧
      (s.length + (paddingOf s).length) % 4 = 0 ∧
      ∀ n, n < (paddingOf s).length → (s.length + n) % 4 ≠ 0) := by
  constructor
  · intro h
    refine ⟨?_, urlBase64ToUint8Array_throws s h⟩
    have hk : (4 - s.length % 4) % 4 = 3 := by omega
    simp [paddingOf, repeatChar, hk, List.replicate]
  · intro h
    have hall : ∀ c ∈ paddingOf s, c = chEq := by
      intro c hc
      exact (List.mem_replicate.mp hc).2
    rw [paddingOf_length]
    refine ⟨by omega, hall, by omega, ?_⟩
    intro n hn
    omega

theorem urlBase64ToUint8Array_padding_witness :
    ((js "A").length % 4 = 1 ∧ urlBase64ToUint8Array (js "A") = .threw invalidCharacterError) ∧
    ((js "AQ").length % 4 ≠ 1 ∧ (paddingOf (js "AQ")).length ≤ 2 ∧
      ((js "AQ").length + (paddingOf (js "AQ")).length) % 4 = 0) :=
  ⟨⟨by decide, ((urlBase64ToUint8Array_padding (js "A")).1 (by decide)).2.2⟩,
    ⟨by decide, ((urlBase64ToUint8Array_padding (js "AQ")).2 (by decide)).1,
      ((urlBase64ToUint8Array_padding (js "AQ")).2 (by decide)).2.2.1⟩⟩

/-- C10: on an unpadded string of `n` base64url alphabet characters with `n mod 4 ≠ 1`
the conversion returns exactly `floor(3n/4)` bytes, each below 256; 87 characters give
65 bytes. -/
theorem urlBase64ToUint8Array_length (s : JSString) (h : ValidBase64url s) :
    ∃ out, urlBase64ToUint8Array s = .returned out ∧
      out.length = 3 * s.length / 4 ∧
      (∀ b ∈ out, b < 256) ∧
      (s.length = 87 → out.length = 65) := by
  refine ⟨base64urlDecode s, urlBase64ToUint8Array_valid s h, base64urlDecode_length s,
    base64urlDecode_lt s, ?_⟩
  intro h87
  rw [base64urlDecode_length, h87]

theorem urlBase64ToUint8Array_length_witness :
    ValidBase64url sampleKey ∧
    ∃ out, urlBase64ToUint8Array sampleKey = .returned out ∧
      out.length = 3 * sampleKey.length / 4 ∧
      (∀ b ∈ out, b < 256) ∧
      (sampleKey.length = 87 → out.length = 65) :=
  ⟨⟨by decide, by decide⟩, urlBase64ToUint8Array_length sampleKey ⟨by decide, by decide⟩⟩

/-- C2: in a run in which `pushManager.subscribe` returns a subscription `sub` (so the
key is present, registration succeeded and permission is 'granted'), the trace holds
exactly one `fetch` call: to '/save-subscription', with method 'POST', body
`JSON.stringify(sub)` and header content-type 'application/json', whatever the
outcome of that request. -/
theorem runPushManager_posts_subscription (env : Env) (reg : Registration)
    (opts : SubscribeOptions) (sub : PushSubscription)
    (hsub : Event.subscribe reg opts (.returned sub) ∈ (runPushManager env).trace) :
    (runPushManager env).trace.filter Event.isFetch =
      [.fetch (js "/save-subscription")
        ⟨js "POST", env.stringify sub, [(js "content-type", js "application/json")]⟩
        (env.fetch (js "/save-subscription")
          ⟨js "POST", env.stringify sub, [(js "content-type", js "application/json")]⟩)] := by
  revert hsub
  refine runPushManager_cases env (fun r => Event.subscribe reg opts (.returned sub) ∈ r.trace →
    r.trace.filter Event.isFetch =
      [.fetch (js "/save-subscription")
        ⟨js "POST", env.stringify sub, [(js "content-type", js "application/json")]⟩
        (env.fetch (js "/save-subscription")
          ⟨js "POST", env.stringify sub, [(js "content-type", js "application/json")]⟩)])
    ?_ ?_ ?_ ?_ ?_ ?_ ?_ ?_ ?_
  all_goals intros
  all_goals simp_all [Event.isFetch]

theorem runPushManager_posts_subscription_witness :
    Event.subscribe sampleRegistration ⟨true, [1, 0, 1]⟩ (.returned sampleSubscription)
      ∈ (runPushManager envGranted).trace ∧
    (runPushManager envGranted).trace.filter Event.isFetch =
      [.fetch (js "/save-subscription")
        ⟨js "POST", envGranted.stringify sampleSubscription,
          [(js "content-type", js "application/json")]⟩
        (envGranted.fetch (js "/save-subscription")
          ⟨js "POST", envGranted.stringify sampleSubscription,
            [(js "content-type", js "application/json")]⟩)] :=
  ⟨by decide, runPushManager_posts_subscription envGranted sampleRegistration
    ⟨true, [1, 0, 1]⟩ sampleSubscription (by decide)⟩

/-- C3: when `window.vapidPublicKey` is undefined, `runPushManager` returns after one
`console.error` call and calls none of `navigator.serviceWorker.register`,
`Notification.requestPermission`, `pushManager.subscribe` and `fetch`. -/
theorem runPushManager_undefined_key (env : Env) (h : env.vapidPublicKey = none) :
    (runPushManager env).outcome = .returned () ∧
    (runPushManager env).trace = [.console .error
      (js "push-manager.js: VAPID_PUBLIC_KEY not found on window object. Aborting.") none] ∧
    ∀ ev ∈ (runPushManager env).trace, ev.isRegister = false ∧
      ev.isRequestPermission = false ∧ ev.isSubscribe = false ∧ ev.isFetch = false := by
  simp [runPushManager, h, consoleCall, perform, Event.isRegister, Event.isRequestPermission,
    Event.isSubscribe, Event.isFetch]

theorem runPushManager_undefined_key_witness :
    envUndefinedKey.vapidPublicKey = none ∧
    (runPushManager envUndefinedKey).outcome = .returned () ∧
    (runPushManager envUndefinedKey).trace = [.console .error
      (js "push-manager.js: VAPID_PUBLIC_KEY not found on window object. Aborting.") none] :=
  ⟨rfl, (runPushManager_undefined_key envUndefinedKey rfl).1,
    (runPushManager_undefined_key envUndefinedKey rfl).2.1⟩

/-- C4: in a run in which `Notification.requestPermission` resolves to a value other
than 'granted', there is no call of `pushManager.subscribe` and none of `fetch`, the
workflow returns normally, and the last thing it does is log the warning. -/
theorem runPushManager_permission_not_granted (env : Env) (p : JSString)
    (hcall : Event.requestPermission (.returned p) ∈ (runPushManager env).trace)
    (hp : p ≠ js "granted") :
    (∀ ev ∈ (runPushManager env).trace, ev.isSubscribe = false ∧ ev.isFetch = false) ∧
    (runPushManager env).outcome = .returned () ∧
    (runPushManager env).trace.getLast? = some (.console .warn
      (js "push-manager.js: Notification permission was not granted.") none) ∧
    ((runPushManager env).trace.filter Event.isWarning).length = 1 := by
  revert hcall
  refine runPushManager_cases env (fun r => Event.requestPermission (.returned p) ∈ r.trace →
    (∀ ev ∈ r.trace, ev.isSubscribe = false ∧ ev.isFetch = false) ∧
    r.outcome = .returned () ∧
    r.trace.getLast? = some (.console .warn
      (js "push-manager.js: Notification permission was not granted.") none) ∧
    (r.trace.filter Event.isWarning).length = 1) ?_ ?_ ?_ ?_ ?_ ?_ ?_ ?_ ?_
  all_goals intros
  all_goals simp_all [Event.isSubscribe, Event.isFetch, Event.isWarning]

theorem runPushManager_permission_not_granted_witness :
    Event.requestPermission (.returned (js "denied")) ∈ (runPushManager envDenied).trace ∧
    js "denied" ≠ js "granted" ∧
    (∀ ev ∈ (runPushManager envDenied).trace, ev.isSubscribe = false ∧ ev.isFetch = false) ∧
    (runPushManager envDenied).outcome = .returned () :=
  ⟨by decide, by decide,
    (runPushManager_permission_not_granted envDenied (js "denied") (by decide) (by decide)).1,
    (runPushManager_permission_not_granted envDenied (js "denied") (by decide) (by decide)).2.1⟩

/-- C5: for a push event whose payload parses as a JSON object with the string fields
`title = T` and `body = B`, the listener makes exactly one `showNotification` call,
with title `T` and options whose body is `B` and whose icon is the fixed URL. -/
theorem pushListener_shows_notification (fields : List (JSString × JSValue)) (T B : JSString)
    (hT : fields.lookup (js "title") = some (.string T))
    (hB : fields.lookup (js "body") = some (.string B)) :
    (pushListener ⟨some (.returned (.object fields))⟩).trace.filter WorkerEvent.isShowNotification =
      [.showNotification (.string T)
        ⟨.string B, js "https://img.icons8.com/fluency/48/heart-with-pulse.png"⟩] ∧
    (pushListener ⟨some (.returned (.object fields))⟩).outcome = .returned () := by
  simp [pushListener, getProp, hT, hB, evaluate, consoleCall, perform, bind, Run.bind,
    WorkerEvent.isShowNotification, notificationIcon]

theorem pushListener_shows_notification_witness :
    samplePayload.lookup (js "title") = some (.string (js "T")) ∧
    samplePayload.lookup (js "body") = some (.string (js "B")) ∧
    (pushListener ⟨some (.returned (.object samplePayload))⟩).trace.filter
        WorkerEvent.isShowNotification =
      [.showNotification (.string (js "T"))
        ⟨.string (js "B"), js "https://img.icons8.com/fluency/48/heart-with-pulse.png"⟩] :=
  ⟨rfl, rfl, (pushListener_shows_notification samplePayload (js "T") (js "B") rfl rfl).1⟩

/-- C6: `runPushManager` always completes normally. When registration, the permission
request, the key conversion, `pushManager.subscribe` or `fetch` throws or rejects
with `e`, the failing call is the last step of the workflow: the only thing that
follows it is the call `console.error('push-manager.js: A critical error occurred in
runPushManager: ', e)` of the catch block, with that same `e`, and no later step
appears in the trace. -/
theorem runPushManager_catches (env : Env) :
    (runPushManager env).outcome = .returned () ∧
    (∀ url e, Event.register url (.threw e) ∈ (runPushManager env).trace →
      (runPushManager env).trace.getLast? = some (.console .error
        (js "push-manager.js: A critical error occurred in runPushManager: ")
        (some (.err e))) ∧
      (runPushManager env).trace.dropLast.getLast? = some (.register url (.threw e)) ∧
      ∀ ev ∈ (runPushManager env).trace, ev.isRequestPermission = false ∧
        ev.isSubscribe = false ∧ ev.isFetch = false) ∧
    (∀ e, Event.requestPermission (.threw e) ∈ (runPushManager env).trace →
      (runPushManager env).trace.getLast? = some (.console .error
        (js "push-manager.js: A critical error occurred in runPushManager: ")
        (some (.err e))) ∧
      (runPushManager env).trace.dropLast.getLast? = some (.requestPermission (.threw e)) ∧
      ∀ ev ∈ (runPushManager env).trace, ev.isSubscribe = false ∧ ev.isFetch = false) ∧
    (∀ k e, env.vapidPublicKey = some k →
      Event.requestPermission (.returned (js "granted")) ∈ (runPushManager env).trace →
      urlBase64ToUint8Array k = .threw e →
      (runPushManager env).trace.getLast? = some (.console .error
        (js "push-manager.js: A critical error occurred in runPushManager: ")
        (some (.err e))) ∧
      (runPushManager env).trace.dropLast.getLast? = some (.console .log
        (js "push-manager.js: Notification permission granted.") none) ∧
      ∀ ev ∈ (runPushManager env).trace, ev.isSubscribe = false ∧ ev.isFetch = false) ∧
    (∀ reg opts e, Event.subscribe reg opts (.threw e) ∈ (runPushManager env).trace →
      (runPushManager env).trace.getLast? = some (.console .error
        (js "push-manager.js: A critical error occurred in runPushManager: ")
        (some (.err e))) ∧
      (runPushManager env).trace.dropLast.getLast? = some (.subscribe reg opts (.threw e)) ∧
      ∀ ev ∈ (runPushManager env).trace, ev.isFetch = false) ∧
    (∀ url init e, Event.fetch url init (.threw e) ∈ (runPushManager env).trace →
      (runPushManager env).trace.getLast? = some (.console .error
        (js "push-manager.js: A critical error occurred in runPushManager: ")
        (some (.err e))) ∧
      (runPushManager env).trace.dropLast.getLast? = some (.fetch url init (.threw e))) := by
  refine runPushManager_cases env (fun r =>
    r.outcome = .returned () ∧
    (∀ url e, Event.register url (.threw e) ∈ r.trace →
      r.trace.getLast? = some (.console .error
        (js "push-manager.js: A critical error occurred in runPushManager: ")
        (some (.err e))) ∧
      r.trace.dropLast.getLast? = some (.register url (.threw e)) ∧
      ∀ ev ∈ r.trace, ev.isRequestPermission = false ∧
        ev.isSubscribe = false ∧ ev.isFetch = false) ∧
    (∀ e, Event.requestPermission (.threw e) ∈ r.trace →
      r.trace.getLast? = some (.console .error
        (js "push-manager.js: A critical error occurred in runPushManager: ")
        (some (.err e))) ∧
      r.trace.dropLast.getLast? = some (.requestPermission (.threw e)) ∧
      ∀ ev ∈ r.trace, ev.isSubscribe = false ∧ ev.isFetch = false) ∧
    (∀ k e, env.vapidPublicKey = some k →
      Event.requestPermission (.returned (js "granted")) ∈ r.trace →
      urlBase64ToUint8Array k = .threw e →
      r.trace.getLast? = some (.console .error
        (js "push-manager.js: A critical error occurred in runPushManager: ")
        (some (.err e))) ∧
      r.trace.dropLast.getLast? = some (.console .log
        (js "push-manager.js: Notification permission granted.") none) ∧
      ∀ ev ∈ r.trace, ev.isSubscribe = false ∧ ev.isFetch = false) ∧
    (∀ reg opts e, Event.subscribe reg opts (.threw e) ∈ r.trace →
      r.trace.getLast? = some (.console .error
        (js "push-manager.js: A critical error occurred in runPushManager: ")
        (some (.err e))) ∧
      r.trace.dropLast.getLast? = some (.subscribe reg opts (.threw e)) ∧
      ∀ ev ∈ r.trace, ev.isFetch = false) ∧
    (∀ url init e, Event.fetch url init (.threw e) ∈ r.trace →
      r.trace.getLast? = some (.console .error
        (js "push-manager.js: A critical error occurred in runPushManager: ")
        (some (.err e))) ∧
      r.trace.dropLast.getLast? = some (.fetch url init (.threw e))))
    ?_ ?_ ?_ ?_ ?_ ?_ ?_ ?_ ?_
  all_goals intros
  all_goals simp_all [Event.isRequestPermission, Event.isSubscribe, Event.isFetch]
  all_goals (intros; subst_vars; simp_all)

theorem runPushManager_catches_witness :
    (Event.register (js "/service-worker.js") (.threw ⟨js "SecurityError"⟩)
        ∈ (runPushManager envRegisterFails).trace ∧
      (runPushManager envRegisterFails).trace.getLast? = some (.console .error
        (js "push-manager.js: A critical error occurred in runPushManager: ")
        (some (.err ⟨js "SecurityError"⟩)))) ∧
    (Event.requestPermission (.threw ⟨js "TypeError"⟩) ∈ (runPushManager envPermissionFails).trace ∧
      (runPushManager envPermissionFails).trace.getLast? = some (.console .error
        (js "push-manager.js: A critical error occurred in runPushManager: ")
        (some (.err ⟨js "TypeError"⟩)))) ∧
    (envBadKey.vapidPublicKey = some (js "A") ∧
      Event.requestPermission (.returned (js "granted")) ∈ (runPushManager envBadKey).trace ∧
      urlBase64ToUint8Array (js "A") = .threw invalidCharacterError ∧
      (runPushManager envBadKey).trace.getLast? = some (.console .error
        (js "push-manager.js: A critical error occurred in runPushManager: ")
        (some (.err invalidCharacterError)))) ∧
    (Event.subscribe sampleRegistration ⟨true, [1, 0, 1]⟩ (.threw ⟨js "AbortError"⟩)
        ∈ (runPushManager envSubscribeFails).trace ∧
      (runPushManager envSubscribeFails).trace.getLast? = some (.console .error
        (js "push-manager.js: A critical error occurred in runPushManager: ")
        (some (.err ⟨js "AbortError"⟩)))) ∧
    (Event.fetch (js "/save-subscription")
        ⟨js "POST", sampleSubscription.endpoint, [(js "content-type", js "application/json")]⟩
        (.threw ⟨js "TypeError"⟩) ∈ (runPushManager envFetchFails).trace ∧
      (runPushManager envFetchFails).trace.getLast? = some (.console .error
        (js "push-manager.js: A critical error occurred in runPushManager: ")
        (some (.err ⟨js "TypeError"⟩)))) :=
  ⟨⟨by decide, ((runPushManager_catches envRegisterFails).2.1 (js "/service-worker.js")
      ⟨js "SecurityError"⟩ (by decide)).1⟩,
    ⟨by decide, ((runPushManager_catches envPermissionFails).2.2.1 ⟨js "TypeError"⟩
      (by decide)).1⟩,
    ⟨rfl, by decide, by decide,
      ((runPushManager_catches envBadKey).2.2.2.1 (js "A") invalidCharacterError rfl (by decide)
        (by decide)).1⟩,
    ⟨by decide, ((runPushManager_catches envSubscribeFails).2.2.2.2.1 sampleRegistration
      ⟨true, [1, 0, 1]⟩ ⟨js "AbortError"⟩ (by decide)).1⟩,
    ⟨by decide, ((runPushManager_catches envFetchFails).2.2.2.2.2 (js "/save-subscription")
      ⟨js "POST", sampleSubscription.endpoint, [(js "content-type", js "application/json")]⟩
      ⟨js "TypeError"⟩ (by decide)).1⟩⟩

/-- C7: in a run whose trace holds a `pushManager.subscribe` call, that call is the
only one, its options are `userVisibleOnly = true` and `applicationServerKey =
urlBase64ToUint8Array(k)` for the VAPID key `k`, and the successful registration and
the permission answer 'granted' precede it; and every run that got the answer
'granted' and in which the conversion of `k` returns makes that call. -/
theorem runPushManager_subscribe_call (env : Env) :
    (∀ reg opts res, Event.subscribe reg opts res ∈ (runPushManager env).trace →
      (∃ k bytes, env.vapidPublicKey = some k ∧ urlBase64ToUint8Array k = .returned bytes ∧
        opts.userVisibleOnly = true ∧ opts.applicationServerKey = bytes) ∧
      (runPushManager env).trace.filter Event.isSubscribe = [.subscribe reg opts res] ∧
      Event.register (js "/service-worker.js") (.returned reg) ∈
        (runPushManager env).trace.takeWhile (fun ev => !ev.isSubscribe) ∧
      Event.requestPermission (.returned (js "granted")) ∈
        (runPushManager env).trace.takeWhile (fun ev => !ev.isSubscribe)) ∧
    (∀ k bytes, env.vapidPublicKey = some k →
      Event.requestPermission (.returned (js "granted")) ∈ (runPushManager env).trace →
      urlBase64ToUint8Array k = .returned bytes →
      ∃ reg res, (runPushManager env).trace.filter Event.isSubscribe =
        [.subscribe reg ⟨true, bytes⟩ res]) := by
  refine runPushManager_cases env (fun r =>
    (∀ reg opts res, Event.subscribe reg opts res ∈ r.trace →
      (∃ k bytes, env.vapidPublicKey = some k ∧ urlBase64ToUint8Array k = .returned bytes ∧
        opts.userVisibleOnly = true ∧ opts.applicationServerKey = bytes) ∧
      r.trace.filter Event.isSubscribe = [.subscribe reg opts res] ∧
      Event.register (js "/service-worker.js") (.returned reg) ∈
        r.trace.takeWhile (fun ev => !ev.isSubscribe) ∧
      Event.requestPermission (.returned (js "granted")) ∈
        r.trace.takeWhile (fun ev => !ev.isSubscribe)) ∧
    (∀ k bytes, env.vapidPublicKey = some k →
      Event.requestPermission (.returned (js "granted")) ∈ r.trace →
      urlBase64ToUint8Array k = .returned bytes →
      ∃ reg res, r.trace.filter Event.isSubscribe = [.subscribe reg ⟨true, bytes⟩ res]))
    ?_ ?_ ?_ ?_ ?_ ?_ ?_ ?_ ?_
  all_goals intros
  all_goals simp_all [Event.isSubscribe, List.takeWhile]
  all_goals (intros; subst_vars; simp_all)

theorem runPushManager_subscribe_call_witness :
    Event.subscribe sampleRegistration ⟨true, [1, 0, 1]⟩ (.returned sampleSubscription)
      ∈ (runPushManager envGranted).trace ∧
    (runPushManager envGranted).trace.filter Event.isSubscribe =
      [.subscribe sampleRegistration ⟨true, [1, 0, 1]⟩ (.returned sampleSubscription)] ∧
    Event.requestPermission (.returned (js "granted")) ∈
      (runPushManager envGranted).trace.takeWhile (fun ev => !ev.isSubscribe) ∧
    envGranted.vapidPublicKey = some (js "AQAB") ∧
    Event.requestPermission (.returned (js "granted")) ∈ (runPushManager envGranted).trace ∧
    urlBase64ToUint8Array (js "AQAB") = .returned [1, 0, 1] ∧
    ∃ reg res, (runPushManager envGranted).trace.filter Event.isSubscribe =
      [.subscribe reg ⟨true, [1, 0, 1]⟩ res] :=
  ⟨by decide,
    ((runPushManager_subscribe_call envGranted).1 sampleRegistration ⟨true, [1, 0, 1]⟩
      (.returned sampleSubscription) (by decide)).2.1,
    ((runPushManager_subscribe_call envGranted).1 sampleRegistration ⟨true, [1, 0, 1]⟩
      (.returned sampleSubscription) (by decide)).2.2.2,
    rfl, by decide, by decide,
    (runPushManager_subscribe_call envGranted).2 (js "AQAB") [1, 0, 1] rfl (by decide)
      (by decide)⟩

/-- C8: when 'serviceWorker' is not in `navigator` or 'PushManager' is not in `window`,
the script registers no listener and logs exactly one warning, and the page makes no
register, permission, subscribe or fetch call; when both are present, the script
registers `runPushManager` for the `load` event and logs no warning. -/
theorem pushManagerScript_capability_check (env : Env) :
    (¬ (env.serviceWorkerInNavigator = true ∧ env.pushManagerInWindow = true) →
      (∀ ev ∈ (pushManagerScript env).trace, ev.isAddEventListener = false) ∧
      (pushManagerScript env).trace.filter Event.isWarning = [.console .warn
        (js "push-manager.js: This browser does not support push notifications.") none] ∧
      pageTrace env = (pushManagerScript env).trace ∧
      ∀ ev ∈ pageTrace env, ev.isRegister = false ∧ ev.isRequestPermission = false ∧
        ev.isSubscribe = false ∧ ev.isFetch = false) ∧
    (env.serviceWorkerInNavigator = true ∧ env.pushManagerInWindow = true →
      (pushManagerScript env).trace.filter Event.isAddEventListener =
        [.addEventListener (js "load") .runPushManager] ∧
      (pushManagerScript env).trace.filter Event.isWarning = [] ∧
      pageTrace env = (pushManagerScript env).trace ++ (runPushManager env).trace) := by
  cases hs : env.serviceWorkerInNavigator <;> cases hp : env.pushManagerInWindow <;>
    simp [pageTrace, pushManagerScript, listenersFor, Listener.invoke, consoleCall, perform, bind,
      Run.bind, hs, hp, Event.isAddEventListener, Event.isWarning, Event.isRegister,
      Event.isRequestPermission, Event.isSubscribe, Event.isFetch]

theorem pushManagerScript_capability_check_witness :
    (¬ (envUnsupported.serviceWorkerInNavigator = true ∧
        envUnsupported.pushManagerInWindow = true) ∧
      (pushManagerScript envUnsupported).trace.filter Event.isWarning = [.console .warn
        (js "push-manager.js: This browser does not support push notifications.") none] ∧
      pageTrace envUnsupported = (pushManagerScript envUnsupported).trace) ∧
    ((envGranted.serviceWorkerInNavigator = true ∧ envGranted.pushManagerInWindow = true) ∧
      pageTrace envGranted = (pushManagerScript envGranted).trace ++
        (runPushManager envGranted).trace) :=
  ⟨⟨by decide, ((pushManagerScript_capability_check envUnsupported).1 (by decide)).2.1,
      ((pushManagerScript_capability_check envUnsupported).1 (by decide)).2.2.1⟩,
    ⟨by decide, ((pushManagerScript_capability_check envGranted).2 (by decide)).2.2⟩⟩

end PushClient
